import Mathlib

/-!
Shallow embedding of the vk_parser repository (src/vk_task.py, src/main.py).

Python dictionaries are modelled as association lists of `Json` values,
Python exceptions as an `Except PyErr` monad, and the unbounded pagination
loop with explicit fuel.  File-system effects inside the writers are
modelled by a boolean oracle saying whether the open/write succeeds.
-/

namespace VkTask

/-- JSON-like values as returned by the remote API and stored in report
records.  Floating point numbers are not needed by any claim and are not
modelled. -/
inductive Json : Type where
  | null : Json
  | bool : Bool → Json
  | num : Int → Json
  | str : String → Json
  | arr : List Json → Json
  | obj : List (String × Json) → Json
deriving Repr

/-- Python exception values that the program can raise, with their message. -/
inductive PyErr : Type where
  | keyError : String → PyErr
  | typeError : String → PyErr
  | valueError : String → PyErr
  | attributeError : String → PyErr
  | ioError : String → PyErr
  | indexError : String → PyErr
  | exception : String → PyErr
deriving Repr, DecidableEq

/-- The message text of an exception, as interpolated by a Python f-string.
(For KeyError, Python would additionally wrap the key in quote marks; the
quotes carry no information and are omitted here.) -/
def errMsg : PyErr → String
  | PyErr.keyError k => k
  | PyErr.typeError m => m
  | PyErr.valueError m => m
  | PyErr.attributeError m => m
  | PyErr.ioError m => m
  | PyErr.indexError m => m
  | PyErr.exception m => m

/-- A Python dict with string keys, as an association list (keys unique in
practice; lookup takes the first binding, as dicts do). -/
abbrev PyDict : Type := List (String × Json)

/-- Run a fallible step on every element in order, stopping at the first
raised exception (the effect of a Python for-loop or comprehension whose
body may raise). -/
def mapExcept {α β : Type} (f : α → Except PyErr β) : List α → Except PyErr (List β)
  | [] => Except.ok []
  | a :: t => do
      let b ← f a
      let r ← mapExcept f t
      Except.ok (b :: r)

/-- Python dict.get: the value bound to a key, or none when absent. -/
def pyGet (d : PyDict) (k : String) : Option Json :=
  (d.find? fun p => p.1 == k).map Prod.snd

/-- Python truthiness of a JSON value: None, False, 0, empty string and
empty collections are falsy, everything else truthy. -/
def pyTruthy : Json → Bool
  | Json.null => false
  | Json.bool b => b
  | Json.num n => n != 0
  | Json.str s => s != ""
  | Json.arr xs => !xs.isEmpty
  | Json.obj fs => !fs.isEmpty

/-- Python subscript v[k] with a string key: dict lookup (KeyError when the
key is absent), TypeError on any non-dict value. -/
def subscript (v : Json) (k : String) : Except PyErr Json :=
  match v with
  | Json.obj fields =>
      match pyGet fields k with
      | some x => Except.ok x
      | none => Except.error (PyErr.keyError k)
  | _ => Except.error (PyErr.typeError "object is not subscriptable")

/-- Navigation of the response envelope performed by Paginator.get_friends:
friends_request["response"]["items"] (src/vk_task.py line 65). -/
def envelopeItems (body : Json) : Except PyErr Json := do
  let r ← subscript body "response"
  subscript r "items"

/-- Paginator.get_friends (src/vk_task.py lines 54-67).  The HTTP transport
is abstracted as a function from the request offset to either a decoded
body or a transport error; the try/except wraps any failure (transport or
envelope navigation) into a fresh Exception whose message embeds the
message of the cause. -/
def get_friends (fetch : Nat → Except PyErr Json) (offset : Nat) :
    Except PyErr Json :=
  match (do let body ← fetch offset; envelopeItems body : Except PyErr Json) with
  | Except.ok items => Except.ok items
  | Except.error e =>
      Except.error
        (PyErr.exception ("Error occurred while requesting friends list: " ++ errMsg e))

/-- The while-True loop of Paginator.get_all_friends (src/vk_task.py lines
43-52), with explicit fuel (none = the loop has not finished within the
given number of iterations).  The result carries the accumulated friends
list together with the number of page requests issued.  friends_list.extend
requires the fetched page to be a JSON array (Python would raise a
TypeError on a non-iterable page). -/
def get_all_friends_aux (fetch : Nat → Except PyErr Json) (count : Nat) :
    Nat → Nat → List Json → Nat → Option (Except PyErr (List Json) × Nat)
  | 0, _, _, _ => none
  | fuel + 1, offset, acc, reqs =>
      match get_friends fetch offset with
      | Except.error e => some (Except.error e, reqs + 1)
      | Except.ok (Json.arr page) =>
          if page.length < count then some (Except.ok (acc ++ page), reqs + 1)
          else get_all_friends_aux fetch count fuel (offset + count) (acc ++ page) (reqs + 1)
      | Except.ok _ => some (Except.error (PyErr.typeError "page is not iterable"), reqs + 1)

/-- Paginator.get_all_friends: run the loop from offset 0 with an empty
accumulator.  The count argument is the page-size parameter used by the
termination test (the request page size is baked into fetch, mirroring how
the source uses self.count in the request parameters but the method
argument count in the break test; all call sites pass equal values). -/
def get_all_friends (fetch : Nat → Except PyErr Json) (count fuel : Nat) :
    Option (Except PyErr (List Json) × Nat) :=
  get_all_friends_aux fetch count fuel 0 [] 0

/-- A faithful backing server for pagination claims: a fixed sequence of
items served in order, one slice of pageSize items per request, wrapped in
the documented response envelope. -/
def vkFetch (items : List Json) (pageSize offset : Nat) : Except PyErr Json :=
  Except.ok (Json.obj
    [("response", Json.obj [("items", Json.arr ((items.drop offset).take pageSize))])])

/-- A backing server that behaves like vkFetch up to a given offset and
fails with a transport error from that offset on: the scenario in which
the run has already accumulated pages when a request fails. -/
def vkFetchFailAt (items : List Json) (pageSize failAt : Nat) (e : PyErr)
    (offset : Nat) : Except PyErr Json :=
  if offset < failAt then vkFetch items pageSize offset else Except.error e

/-- Number of page requests the loop issues to drain n items with page size
p: one extra trailing request when p divides n (the documented short-page
quirk), the plain ceiling otherwise. -/
def reqCount (n p : Nat) : Nat :=
  if n % p = 0 then n / p + 1 else (n + p - 1) / p

/-- FriendsParser.FIELDS (src/vk_task.py line 71). -/
def FIELDS : List String :=
  ["first_name", "last_name", "country", "city", "bdate", "sex"]

/-- FriendsParser.get_value_from_data (src/vk_task.py lines 103-107):
element = friend.get(key); a truthy value answers element.get("title")
(an AttributeError when the truthy value is not a dict), a falsy or absent
value is returned as-is (absent and None coincide in Json.null). -/
def get_value_from_data (friend : PyDict) (key : String) : Except PyErr Json :=
  let element := (pyGet friend key).getD Json.null
  if pyTruthy element then
    match element with
    | Json.obj fields => Except.ok ((pyGet fields "title").getD Json.null)
    | _ => Except.error (PyErr.attributeError "object has no attribute get")
  else Except.ok element

/-- Two-digit day alternative of the strptime %d pattern
(3[01] or [12] digit or 0[1-9], tried in that order). -/
def twoDigitDay (c1 c2 : Char) : Option Nat :=
  if c1 = '3' && (c2 = '0' || c2 = '1') then some (30 + (c2.toNat - 48))
  else if (c1 = '1' || c1 = '2') && c2.isDigit then
    some ((c1.toNat - 48) * 10 + (c2.toNat - 48))
  else if c1 = '0' && ('1' ≤ c2 && c2 ≤ '9') then some (c2.toNat - 48)
  else none

/-- One-digit alternative [1-9] shared by the %d and %m patterns. -/
def oneDigitVal (c : Char) : Option Nat :=
  if '1' ≤ c && c ≤ '9' then some (c.toNat - 48) else none

/-- Two-digit month alternative of the strptime %m pattern
(1[0-2] or 0[1-9]). -/
def twoDigitMonth (c1 c2 : Char) : Option Nat :=
  if c1 = '1' && ('0' ≤ c2 && c2 ≤ '2') then some (10 + (c2.toNat - 48))
  else if c1 = '0' && ('1' ≤ c2 && c2 ≤ '9') then some (c2.toNat - 48)
  else none

/-- Ordered candidate matches (value and remaining input) for %d:
the two-character alternatives first, then the single digit, exactly the
alternation order of the CPython pattern. -/
def dayCands : List Char → List (Nat × List Char)
  | c1 :: c2 :: rest =>
      (match twoDigitDay c1 c2 with
        | some d => [(d, rest)]
        | none => []) ++
      (match oneDigitVal c1 with
        | some d => [(d, c2 :: rest)]
        | none => [])
  | [c1] =>
      (match oneDigitVal c1 with
        | some d => [(d, [])]
        | none => [])
  | [] => []

/-- Ordered candidate matches for %m. -/
def monthCands : List Char → List (Nat × List Char)
  | c1 :: c2 :: rest =>
      (match twoDigitMonth c1 c2 with
        | some m => [(m, rest)]
        | none => []) ++
      (match oneDigitVal c1 with
        | some m => [(m, c2 :: rest)]
        | none => [])
  | [c1] =>
      (match oneDigitVal c1 with
        | some m => [(m, [])]
        | none => [])
  | [] => []

/-- %Y: exactly four digits. -/
def yearParse : List Char → Option (Nat × List Char)
  | a :: b :: c :: d :: rest =>
      if a.isDigit && b.isDigit && c.isDigit && d.isDigit then
        some ((a.toNat - 48) * 1000 + (b.toNat - 48) * 100 +
              (c.toNat - 48) * 10 + (d.toNat - 48), rest)
      else none
  | _ => none

/-- Regex backtracking over an ordered candidate list. -/
def tryCands {α : Type} (cands : List (Nat × List Char))
    (k : Nat → List Char → Option α) : Option α :=
  match cands with
  | [] => none
  | (v, rest) :: more =>
      match k v rest with
      | some r => some r
      | none => tryCands more k

/-- The pattern match performed by datetime.strptime(s, "%d.%m.%Y")
(src/vk_task.py line 114): day, a literal dot, month, a literal dot, a
four-digit year, end of input.  Returns the matched (day, month, year) or
none when the string does not match. -/
def strptimeDMY (s : String) : Option (Nat × Nat × Nat) :=
  tryCands (dayCands s.data) fun d r1 =>
    match r1 with
    | '.' :: r2 =>
        tryCands (monthCands r2) fun m r3 =>
          match r3 with
          | '.' :: r4 =>
              match yearParse r4 with
              | some (y, []) => some (d, m, y)
              | _ => none
          | _ => none
    | _ => none

/-- Gregorian leap year, as datetime uses. -/
def isLeap (y : Nat) : Bool :=
  y % 4 = 0 && (y % 100 != 0 || y % 400 = 0)

/-- Days in a month, as validated by the datetime constructor. -/
def daysInMonth (y m : Nat) : Nat :=
  if m = 2 then (if isLeap y then 29 else 28)
  else if m = 4 || m = 6 || m = 9 || m = 11 then 30
  else 31

/-- Zero-pad a number to two digits. -/
def pad2 (n : Nat) : String :=
  if n < 10 then "0" ++ toString n else toString n

/-- Zero-pad a number to four digits. -/
def pad4 (n : Nat) : String :=
  if n < 10 then "000" ++ toString n
  else if n < 100 then "00" ++ toString n
  else if n < 1000 then "0" ++ toString n
  else toString n

/-- date.isoformat(): YYYY-MM-DD. -/
def isoDate (y m d : Nat) : String :=
  pad4 y ++ "-" ++ pad2 m ++ "-" ++ pad2 d

/-- FriendsParser.get_date_value (src/vk_task.py lines 109-117).  An absent
key or a None value answers None; a string is parsed with
strptime(date, "%d.%m.%Y"), whose ValueError (pattern mismatch or invalid
calendar date, including year 0) is caught and turned into None; any other
value makes strptime raise an uncaught TypeError. -/
def get_date_value (friend : PyDict) (key : String) : Except PyErr Json :=
  match (pyGet friend key).getD Json.null with
  | Json.null => Except.ok Json.null
  | Json.str s =>
      match strptimeDMY s with
      | some (d, m, y) =>
          if 1 ≤ y ∧ 1 ≤ d ∧ d ≤ daysInMonth y m then
            Except.ok (Json.str (isoDate y m d))
          else Except.ok Json.null
      | none => Except.ok Json.null
  | _ => Except.error (PyErr.typeError "strptime() argument 1 must be str")

/-- The per-field branch of the loop in FriendsParser.extract_data
(src/vk_task.py lines 90-101). -/
def extractField (friend : PyDict) (field : String) : Except PyErr Json :=
  if field = "country" || field = "city" then get_value_from_data friend field
  else if field = "bdate" then get_date_value friend field
  else Except.ok ((pyGet friend field).getD Json.null)

/-- FriendsParser.extract_data: build the person dict field by field over
FIELDS, in order. -/
def extract_data (friend : PyDict) : Except PyErr PyDict :=
  mapExcept (fun field => (extractField friend field).map fun v => (field, v)) FIELDS

/-- Well-shaped country and city values per the documented API shapes:
absent, a mapping, or falsy.  (A truthy non-mapping would make
get_value_from_data raise an AttributeError.) -/
def goodNested : Option Json → Bool
  | none => true
  | some (Json.obj _) => true
  | some v => !pyTruthy v

/-- Well-shaped bdate values per the documented API shapes: absent, null
or a string.  (Any other present value would make strptime raise an
uncaught TypeError.) -/
def goodBdate : Option Json → Bool
  | none => true
  | some Json.null => true
  | some (Json.str _) => true
  | some _ => false

/-- A raw record whose consumed optional fields follow the API shapes
documented in the data model. -/
def wellShaped (f : PyDict) : Bool :=
  goodNested (pyGet f "country") && goodNested (pyGet f "city") &&
    goodBdate (pyGet f "bdate")

/-- The sort key lambda d: d["first_name"] of FriendsParser.create_report
(src/vk_task.py line 121): a KeyError when the key is absent. -/
def sortKey (r : PyDict) : Except PyErr Json :=
  match pyGet r "first_name" with
  | some v => Except.ok v
  | none => Except.error (PyErr.keyError "first_name")

/-- The first_name value seen as a string (the only case in which Python
string comparison is involved; the empty-string default is never reached
under the string-key hypotheses of the theorems below). -/
def strKey (r : PyDict) : String :=
  match pyGet r "first_name" with
  | some (Json.str s) => s
  | _ => ""

/-- The comparison sorted() applies between two records: string order on
the first_name keys.  (Python compares the raw key values; non-string
keys, outside every claim, are read through the strKey default so that
the relation stays transitive and total.) -/
def leFirstName (a b : PyDict) : Bool :=
  decide (strKey a ≤ strKey b)

/-- Every record carries a string-valued first_name. -/
def allFirstNameString (l : List PyDict) : Bool :=
  l.all fun r =>
    match pyGet r "first_name" with
    | some (Json.str _) => true
    | _ => false

/-- sorted(friends_list, key=lambda d: d["first_name"]): the keys are
extracted first (raising KeyError on the first record that lacks one),
then the list is sorted stably and ascending, which mergeSort with the
key comparison reproduces. -/
def sortFriends (l : List PyDict) : Except PyErr (List PyDict) := do
  let _ ← mapExcept sortKey l
  Except.ok (l.mergeSort leFirstName)

/-- The report_list loop of FriendsParser.create_report (src/vk_task.py
lines 119-128): sort, then extract each record in order. -/
def buildReport (l : List PyDict) : Except PyErr (List PyDict) := do
  let sorted ← sortFriends l
  mapExcept extract_data sorted

/-- The writer a format dispatches to. -/
inductive WriterKind : Type where
  | csvTsv : WriterKind
  | jsonFile : WriterKind
  | yamlFile : WriterKind
deriving Repr, DecidableEq

/-- The output_formats dispatch dict of create_report (src/vk_task.py
lines 130-136). -/
def output_formats (fmt : String) : Option WriterKind :=
  if fmt = "csv" then some WriterKind.csvTsv
  else if fmt = "json" then some WriterKind.jsonFile
  else if fmt = "tsv" then some WriterKind.csvTsv
  else if fmt = "yaml" then some WriterKind.yamlFile
  else none

/-- FriendsParser.create_report (src/vk_task.py lines 119-141): build the
report list, then look the configured format up in the dispatch dict; a
hit answers the report together with the selected writer, a miss raises
ValueError listing the allowed formats. -/
def create_report (fmt : String) (l : List PyDict) :
    Except PyErr (List PyDict × WriterKind) := do
  let rep ← buildReport l
  match output_formats fmt with
  | some w => Except.ok (rep, w)
  | none =>
      Except.error (PyErr.valueError
        ("Invalid output file format: " ++ fmt ++ ". Allowed formats: csv, json, tsv, yaml"))

/-- Outcome of a writer call that returned normally: either the file
content that was written, or the log line of a swallowed failure. -/
inductive WriteOutcome : Type where
  | written : String → WriteOutcome
  | logged : String → WriteOutcome
deriving Repr

/-- The exception classes caught by write_csv_tsv_file (src/vk_task.py
line 151): TypeError, ValueError, IOError, IndexError. -/
def caughtCsv : PyErr → Bool
  | PyErr.typeError _ => true
  | PyErr.valueError _ => true
  | PyErr.ioError _ => true
  | PyErr.indexError _ => true
  | _ => false

/-- The exception classes caught by write_json_file and write_yaml_file
(src/vk_task.py lines 160, 168): TypeError, IOError. -/
def caughtJsonYaml : PyErr → Bool
  | PyErr.typeError _ => true
  | PyErr.ioError _ => true
  | _ => false

/-- str(value) as the csv module renders a cell (None becomes the empty
string; collection values cannot occur in a report record built by
extract_data, and get a generic rendering). -/
def pyStr : Json → String
  | Json.null => ""
  | Json.bool true => "True"
  | Json.bool false => "False"
  | Json.num n => toString n
  | Json.str s => s
  | Json.arr _ => "[...]"
  | Json.obj _ => "{...}"

/-- The log line issued by every writer on a swallowed failure. -/
def writerLog (output_name output_format : String) : String :=
  "Error while creating " ++ output_name ++ "." ++ output_format ++ " file"

/-- The try-block body of write_csv_tsv_file: open the file (an IOError
when the file system refuses), take the fieldnames from the keys of the
first record (an IndexError on an empty list), then write the header and
one delimited row per record. -/
def csvBody (delim : String) (l : List PyDict) (fsOk : Bool) :
    Except PyErr String :=
  if !fsOk then Except.error (PyErr.ioError "could not open file for writing")
  else
    match l with
    | [] => Except.error (PyErr.indexError "list index out of range")
    | first :: _ =>
        let names := first.map Prod.fst
        Except.ok (String.intercalate "\n"
          (String.intercalate delim names ::
            l.map fun row =>
              String.intercalate delim
                (names.map fun k => pyStr ((pyGet row k).getD Json.null))))

/-- FriendsParser.write_csv_tsv_file (src/vk_task.py lines 143-154): the
delimiter is a comma for csv and a tab otherwise; every caught exception
class is swallowed into a log line. -/
def write_csv_tsv_file (output_name output_format : String) (l : List PyDict)
    (fsOk : Bool) : Except PyErr WriteOutcome :=
  let delim := if output_format = "csv" then "," else "\t"
  match csvBody delim l fsOk with
  | Except.ok content => Except.ok (WriteOutcome.written content)
  | Except.error e =>
      if caughtCsv e then Except.ok (WriteOutcome.logged (writerLog output_name output_format))
      else Except.error e

mutual

/-- json.dump rendering of a value (string escaping not modelled). -/
def jsonDump : Json → String
  | Json.null => "null"
  | Json.bool true => "true"
  | Json.bool false => "false"
  | Json.num n => toString n
  | Json.str s => "\x22" ++ s ++ "\x22"
  | Json.arr xs => "[" ++ String.intercalate ", " (jsonDumpList xs) ++ "]"
  | Json.obj fs => "\x7b" ++ String.intercalate ", " (jsonDumpFields fs) ++ "\x7d"

/-- json.dump rendering of the elements of an array. -/
def jsonDumpList : List Json → List String
  | [] => []
  | x :: xs => jsonDump x :: jsonDumpList xs

/-- json.dump rendering of the entries of an object. -/
def jsonDumpFields : List (String × Json) → List String
  | [] => []
  | (k, v) :: fs => ("\x22" ++ k ++ "\x22: " ++ jsonDump v) :: jsonDumpFields fs

end

/-- FriendsParser.write_json_file (src/vk_task.py lines 156-163): dump the
whole report as one JSON array; TypeError and IOError are swallowed into a
log line.  The report records built by extract_data hold only serializable
values, so serialization itself is total here. -/
def write_json_file (output_name output_format : String) (l : List PyDict)
    (fsOk : Bool) : Except PyErr WriteOutcome :=
  let body : Except PyErr String :=
    if !fsOk then Except.error (PyErr.ioError "could not open file for writing")
    else Except.ok (jsonDump (Json.arr (l.map Json.obj)))
  match body with
  | Except.ok content => Except.ok (WriteOutcome.written content)
  | Except.error e =>
      if caughtJsonYaml e then
        Except.ok (WriteOutcome.logged (writerLog output_name output_format))
      else Except.error e

/-- yaml.dump block-style rendering of one report record: the first field
after a dash, the remaining fields indented. -/
def yamlRecord : PyDict → List String
  | [] => []
  | (k, v) :: fs =>
      ("- " ++ k ++ ": " ++ pyStr v) ::
        fs.map fun p => "  " ++ p.1 ++ ": " ++ pyStr p.2

/-- FriendsParser.write_yaml_file (src/vk_task.py lines 165-172): dump the
report in block style; TypeError and IOError are swallowed into a log
line. -/
def write_yaml_file (output_name output_format : String) (l : List PyDict)
    (fsOk : Bool) : Except PyErr WriteOutcome :=
  let body : Except PyErr String :=
    if !fsOk then Except.error (PyErr.ioError "could not open file for writing")
    else Except.ok (String.intercalate "\n" (l.map fun r => String.intercalate "\n" (yamlRecord r)))
  match body with
  | Except.ok content => Except.ok (WriteOutcome.written content)
  | Except.error e =>
      if caughtJsonYaml e then
        Except.ok (WriteOutcome.logged (writerLog output_name output_format))
      else Except.error e

/-! ## Theorems -/

/-- Claim C2 (amended): get_date_value answers null when bdate is absent or
null; a present string value is parsed as day.month.year and, when the
parse succeeds, converted to the ISO YYYY-MM-DD form, while any parse
failure of a string silently answers null — whether the string fails the
day.month.year pattern (year-less dates, malformed strings) or matches it
with a calendar-invalid date (such as 31.02.2020 or year 0000), both being
the ValueError the source catches; a present non-string value, however,
raises an uncaught TypeError instead of answering null.  Includes the two
round-trip examples of the spec and a calendar-invalid example. -/
theorem claim2_amended (f : PyDict) :
    (pyGet f "bdate" = none → get_date_value f "bdate" = Except.ok Json.null) ∧
    (pyGet f "bdate" = some Json.null → get_date_value f "bdate" = Except.ok Json.null) ∧
    (∀ s d m y, pyGet f "bdate" = some (Json.str s) → strptimeDMY s = some (d, m, y) →
      1 ≤ y → 1 ≤ d → d ≤ daysInMonth y m →
      get_date_value f "bdate" = Except.ok (Json.str (isoDate y m d))) ∧
    (∀ s d m y, pyGet f "bdate" = some (Json.str s) → strptimeDMY s = some (d, m, y) →
      ¬(1 ≤ y ∧ 1 ≤ d ∧ d ≤ daysInMonth y m) →
      get_date_value f "bdate" = Except.ok Json.null) ∧
    (∀ s, pyGet f "bdate" = some (Json.str s) → strptimeDMY s = none →
      get_date_value f "bdate" = Except.ok Json.null) ∧
    (∀ v, pyGet f "bdate" = some v → v ≠ Json.null → (∀ s, v ≠ Json.str s) →
      ∃ m, get_date_value f "bdate" = Except.error (PyErr.typeError m)) ∧
    get_date_value [("bdate", Json.str "15.03.1990")] "bdate" =
      Except.ok (Json.str "1990-03-15") ∧
    get_date_value [("bdate", Json.str "15.03")] "bdate" = Except.ok Json.null ∧
    get_date_value [("bdate", Json.str "31.02.2020")] "bdate" = Except.ok Json.null ∧
    get_date_value ([] : PyDict) "bdate" = Except.ok Json.null := by
  refine ⟨?_, ?_, ?_, ?_, ?_, ?_, rfl, rfl, rfl, rfl⟩
  · intro h; simp [get_date_value, h]
  · intro h; simp [get_date_value, h]
  · intro s d m y hs hp hy hd hdm
    simp [get_date_value, hs, hp, hy, hd, hdm]
  · intro s d m y hs hp hcond
    simp [get_date_value, hs, hp, hcond]
  · intro s hs hp; simp [get_date_value, hs, hp]
  · intro v hv hnull hnstr
    refine ⟨"strptime() argument 1 must be str", ?_⟩
    cases v with
    | null => exact absurd rfl hnull
    | str s => exact absurd rfl (hnstr s)
    | bool b => simp [get_date_value, hv]
    | num n => simp [get_date_value, hv]
    | arr xs => simp [get_date_value, hv]
    | obj fs => simp [get_date_value, hv]

/-- Claim C2, counterexample to the claim as stated: a present non-string
bdate value does not yield null, it raises a TypeError that the
except-ValueError handler does not catch. -/
theorem claim2_counterexample :
    get_date_value [("bdate", Json.num 15)] "bdate" =
      Except.error (PyErr.typeError "strptime() argument 1 must be str") := rfl

/-- Witness for claim C2: the amended theorem applied to the record of the
round-trip example. -/
theorem claim2_witness :
    get_date_value [("bdate", Json.str "15.03.1990")] "bdate" =
      Except.ok (Json.str "1990-03-15") :=
  (claim2_amended [("bdate", Json.str "15.03.1990")]).2.2.1 "15.03.1990" 15 3 1990
    rfl rfl (by decide) (by decide) (by decide)

/-- Claim C3: for the keys country and city, get_value_from_data answers
the nested title sub-field of a present truthy mapping value, the value
as-is when it is present but falsy (null included), and null when the key
is absent. -/
theorem claim3_nested_title (friend : PyDict) (key : String)
    (_hkey : key = "country" ∨ key = "city") :
    (pyGet friend key = none → get_value_from_data friend key = Except.ok Json.null) ∧
    (∀ v, pyGet friend key = some v → pyTruthy v = false →
      get_value_from_data friend key = Except.ok v) ∧
    (∀ fields, pyGet friend key = some (Json.obj fields) →
      pyTruthy (Json.obj fields) = true →
      get_value_from_data friend key = Except.ok ((pyGet fields "title").getD Json.null)) := by
  refine ⟨?_, ?_, ?_⟩
  · intro h; simp [get_value_from_data, h, pyTruthy]
  · intro v hv htr; simp [get_value_from_data, hv, htr]
  · intro fields hv htr; simp [get_value_from_data, hv, htr]

/-- Witness for claim C3: the Russia example of the spec. -/
theorem claim3_witness :
    get_value_from_data
        [("country", Json.obj [("id", Json.num 1), ("title", Json.str "Russia")])]
        "country" = Except.ok (Json.str "Russia") :=
  (claim3_nested_title
      [("country", Json.obj [("id", Json.num 1), ("title", Json.str "Russia")])]
      "country" (Or.inl rfl)).2.2 [("id", Json.num 1), ("title", Json.str "Russia")] rfl rfl

/-- Claim C6: every writer returns normally on every report list and every
file-system outcome (a failure is swallowed into a log line, never
re-raised), and the delimited-text writer on an empty report list in
particular returns a swallowed log entry instead of crashing. -/
theorem claim6_writers_swallow (output_name output_format : String)
    (l : List PyDict) (fsOk : Bool) :
    (∃ o, write_csv_tsv_file output_name output_format l fsOk = Except.ok o) ∧
    (∃ o, write_json_file output_name output_format l fsOk = Except.ok o) ∧
    (∃ o, write_yaml_file output_name output_format l fsOk = Except.ok o) ∧
    (∃ m, write_csv_tsv_file output_name output_format [] fsOk =
      Except.ok (WriteOutcome.logged m)) := by
  refine ⟨?_, ?_, ?_, ?_⟩
  · cases fsOk with
    | false => exact ⟨_, rfl⟩
    | true =>
      cases l with
      | nil => exact ⟨_, rfl⟩
      | cons a t => exact ⟨_, rfl⟩
  · cases fsOk with
    | false => exact ⟨_, rfl⟩
    | true => exact ⟨_, rfl⟩
  · cases fsOk with
    | false => exact ⟨_, rfl⟩
    | true => exact ⟨_, rfl⟩
  · cases fsOk with
    | false => exact ⟨_, rfl⟩
    | true => exact ⟨_, rfl⟩

/-- Claim C7: with the report built, a format outside csv, json, tsv, yaml
makes create_report raise a ValueError whose message lists the allowed
formats (and no writer is selected), while each supported format
dispatches to exactly its matching writer. -/
theorem claim7_format_dispatch (l rep : List PyDict)
    (hrep : buildReport l = Except.ok rep) :
    (∀ fmt, fmt ∉ ["csv", "json", "tsv", "yaml"] →
      create_report fmt l = Except.error (PyErr.valueError
        ("Invalid output file format: " ++ fmt ++ ". Allowed formats: csv, json, tsv, yaml"))) ∧
    create_report "csv" l = Except.ok (rep, WriterKind.csvTsv) ∧
    create_report "tsv" l = Except.ok (rep, WriterKind.csvTsv) ∧
    create_report "json" l = Except.ok (rep, WriterKind.jsonFile) ∧
    create_report "yaml" l = Except.ok (rep, WriterKind.yamlFile) := by
  refine ⟨?_, ?_, ?_, ?_, ?_⟩
  · intro fmt hf
    simp only [List.mem_cons, List.mem_singleton, not_or] at hf
    obtain ⟨h1, h2, h3, h4⟩ := hf
    simp [create_report, hrep, output_formats, h1, h2, h3, h4, Bind.bind, Except.bind]
  · simp [create_report, hrep, output_formats, Bind.bind, Except.bind]
  · simp [create_report, hrep, output_formats, Bind.bind, Except.bind]
  · simp [create_report, hrep, output_formats, Bind.bind, Except.bind]
  · simp [create_report, hrep, output_formats, Bind.bind, Except.bind]

/-- Witness for claim C7: the empty report with the unsupported format xml
of the spec example. -/
theorem claim7_witness :
    buildReport ([] : List PyDict) = Except.ok [] ∧
    create_report "xml" [] = Except.error (PyErr.valueError
      "Invalid output file format: xml. Allowed formats: csv, json, tsv, yaml") := by
  have h : buildReport ([] : List PyDict) = Except.ok [] := by
    simp [buildReport, sortFriends, mapExcept, Bind.bind, Except.bind, List.mergeSort_nil]
  exact ⟨h, (claim7_format_dispatch [] [] h).1 "xml" (by decide)⟩

/-- A list containing a record without a first_name key makes the key
extraction of sorted() raise KeyError at the first such record. -/
theorem mapExcept_sortKey_err :
    ∀ (l : List PyDict), (∃ r ∈ l, pyGet r "first_name" = none) →
      mapExcept sortKey l = Except.error (PyErr.keyError "first_name") := by
  intro l h
  induction l with
  | nil => simp at h
  | cons a t ih =>
    cases hpa : pyGet a "first_name" with
    | none => simp [mapExcept, sortKey, hpa, Bind.bind, Except.bind]
    | some v =>
      obtain ⟨r, hr, hrn⟩ := h
      rcases List.mem_cons.mp hr with rfl | hrt
      · rw [hpa] at hrn; exact Option.noConfusion hrn
      · have := ih ⟨r, hrt, hrn⟩
        simp [mapExcept, sortKey, hpa, this, Bind.bind, Except.bind]

/-- Claim C5: a raw list in which some record lacks the first_name key
makes create_report raise KeyError; the error is raised while sorting,
before the format dispatch, so no writer is selected and no file is
written. -/
theorem claim5_missing_first_name (fmt : String) (l : List PyDict) (r : PyDict)
    (hmem : r ∈ l) (hmiss : pyGet r "first_name" = none) :
    create_report fmt l = Except.error (PyErr.keyError "first_name") := by
  have h := mapExcept_sortKey_err l ⟨r, hmem, hmiss⟩
  simp [create_report, buildReport, sortFriends, h, Bind.bind, Except.bind]

/-- Witness for claim C5: a single empty record lacks first_name, so the
report build aborts with KeyError for every requested format. -/
theorem claim5_witness :
    (([] : PyDict) ∈ [([] : PyDict)]) ∧
    create_report "csv" [([] : PyDict)] = Except.error (PyErr.keyError "first_name") :=
  ⟨List.mem_singleton.mpr rfl,
    claim5_missing_first_name "csv" [[]] [] (List.mem_singleton.mpr rfl) rfl⟩

/-- A well-shaped country or city value makes get_value_from_data return
normally. -/
theorem get_value_from_data_ok (f : PyDict) (k : String)
    (h : goodNested (pyGet f k) = true) :
    ∃ c, get_value_from_data f k = Except.ok c := by
  cases hk : pyGet f k with
  | none => exact ⟨Json.null, by simp [get_value_from_data, hk, pyTruthy]⟩
  | some v =>
    rw [hk] at h
    cases htr : pyTruthy v with
    | false => exact ⟨v, by simp [get_value_from_data, hk, htr]⟩
    | true =>
      cases v with
      | obj fs =>
        exact ⟨(pyGet fs "title").getD Json.null, by simp [get_value_from_data, hk, htr]⟩
      | null => simp [goodNested, htr] at h
      | bool b => simp [goodNested, htr] at h
      | num n => simp [goodNested, htr] at h
      | str s => simp [goodNested, htr] at h
      | arr xs => simp [goodNested, htr] at h

/-- A well-shaped bdate value makes get_date_value return normally. -/
theorem get_date_value_ok (f : PyDict) (k : String)
    (h : goodBdate (pyGet f k) = true) :
    ∃ b, get_date_value f k = Except.ok b := by
  cases hk : pyGet f k with
  | none => exact ⟨Json.null, by simp [get_date_value, hk]⟩
  | some v =>
    rw [hk] at h
    cases v with
    | null => exact ⟨Json.null, by simp [get_date_value, hk]⟩
    | str s =>
      cases hs : strptimeDMY s with
      | none => exact ⟨Json.null, by simp [get_date_value, hk, hs]⟩
      | some t =>
        obtain ⟨d, m, y⟩ := t
        by_cases hcond : 1 ≤ y ∧ 1 ≤ d ∧ d ≤ daysInMonth y m
        · exact ⟨Json.str (isoDate y m d), by simp [get_date_value, hk, hs, hcond]⟩
        · exact ⟨Json.null, by simp [get_date_value, hk, hs, hcond]⟩
    | bool b => simp [goodBdate] at h
    | num n => simp [goodBdate] at h
    | arr xs => simp [goodBdate] at h
    | obj fs => simp [goodBdate] at h

/-- Claim C9: on every raw record whose consumed optional fields follow the
documented API shapes, extract_data returns a record with exactly the six
FIELDS keys in that order, and first_name, last_name and sex are passed
through unchanged, an absent key becoming null rather than an error. -/
theorem claim9_fixed_shape (f : PyDict) (h : wellShaped f = true) :
    ∃ r, extract_data f = Except.ok r ∧
      r.map Prod.fst = FIELDS ∧
      pyGet r "first_name" = some ((pyGet f "first_name").getD Json.null) ∧
      pyGet r "last_name" = some ((pyGet f "last_name").getD Json.null) ∧
      pyGet r "sex" = some ((pyGet f "sex").getD Json.null) := by
  simp only [wellShaped, Bool.and_eq_true] at h
  obtain ⟨⟨hco, hci⟩, hbd⟩ := h
  obtain ⟨c, hc⟩ := get_value_from_data_ok f "country" hco
  obtain ⟨c2, hc2⟩ := get_value_from_data_ok f "city" hci
  obtain ⟨b, hb⟩ := get_date_value_ok f "bdate" hbd
  refine ⟨[("first_name", (pyGet f "first_name").getD Json.null),
          ("last_name", (pyGet f "last_name").getD Json.null),
          ("country", c), ("city", c2), ("bdate", b),
          ("sex", (pyGet f "sex").getD Json.null)], ?_, rfl, rfl, rfl, rfl⟩
  simp [extract_data, FIELDS, mapExcept, extractField, hc, hc2, hb,
    Bind.bind, Except.bind, Except.map]

/-- Witness for claim C9: a record carrying only a first_name. -/
theorem claim9_witness :
    wellShaped [("first_name", Json.str "Ann")] = true ∧
    (∃ r, extract_data [("first_name", Json.str "Ann")] = Except.ok r ∧
      r.map Prod.fst = FIELDS ∧
      pyGet r "first_name" =
        some ((pyGet [("first_name", Json.str "Ann")] "first_name").getD Json.null) ∧
      pyGet r "last_name" =
        some ((pyGet [("first_name", Json.str "Ann")] "last_name").getD Json.null) ∧
      pyGet r "sex" =
        some ((pyGet [("first_name", Json.str "Ann")] "sex").getD Json.null)) :=
  ⟨rfl, claim9_fixed_shape [("first_name", Json.str "Ann")] rfl⟩

/-- When every record carries a string first_name, the key extraction of
sorted() succeeds. -/
theorem mapExcept_sortKey_ok :
    ∀ (l : List PyDict), allFirstNameString l = true →
      ∃ ks, mapExcept sortKey l = Except.ok ks := by
  intro l h
  induction l with
  | nil => exact ⟨[], rfl⟩
  | cons a t ih =>
    simp only [allFirstNameString, List.all_cons, Bool.and_eq_true] at h
    obtain ⟨ha, ht⟩ := h
    obtain ⟨ks, hks⟩ := ih ht
    cases hpa : pyGet a "first_name" with
    | none => rw [hpa] at ha; exact Bool.noConfusion ha
    | some v =>
      cases v with
      | str s =>
        exact ⟨Json.str s :: ks,
          by simp [mapExcept, sortKey, hpa, hks, Bind.bind, Except.bind]⟩
      | null => rw [hpa] at ha; exact Bool.noConfusion ha
      | bool b => rw [hpa] at ha; exact Bool.noConfusion ha
      | num n => rw [hpa] at ha; exact Bool.noConfusion ha
      | arr xs => rw [hpa] at ha; exact Bool.noConfusion ha
      | obj fs => rw [hpa] at ha; exact Bool.noConfusion ha

/-- The first_name comparison is transitive. -/
theorem leFirstName_trans :
    ∀ (a b c : PyDict), leFirstName a b → leFirstName b c → leFirstName a c := by
  intro a b c hab hbc
  simp only [leFirstName, decide_eq_true_eq] at hab hbc ⊢
  exact le_trans hab hbc

/-- The first_name comparison is total. -/
theorem leFirstName_total :
    ∀ (a b : PyDict), leFirstName a b || leFirstName b a := by
  intro a b
  simp only [leFirstName, Bool.or_eq_true, decide_eq_true_eq]
  exact le_total (strKey a) (strKey b)

/-- Claim C4: when every record carries a string first_name, create_report
builds its report from a sorted rearrangement of the input: the sort
succeeds, its result is a permutation of the input, orders the first_name
keys ascending, and the report is exactly that sorted list passed record
by record through extract_data. -/
theorem claim4_sorted_report (l : List PyDict) (h : allFirstNameString l = true) :
    ∃ s, sortFriends l = Except.ok s ∧ s.Perm l ∧
      s.Pairwise (fun a b => strKey a ≤ strKey b) ∧
      buildReport l = mapExcept extract_data s := by
  obtain ⟨ks, hks⟩ := mapExcept_sortKey_ok l h
  refine ⟨l.mergeSort leFirstName, ?_, ?_, ?_, ?_⟩
  · simp [sortFriends, hks, Bind.bind, Except.bind]
  · exact List.mergeSort_perm l leFirstName
  · exact (List.sorted_mergeSort leFirstName_trans leFirstName_total l).imp
      (by intro a b hab; simpa [leFirstName] using hab)
  · simp [buildReport, sortFriends, hks, Bind.bind, Except.bind]

/-- Witness for claim C4: the Bob and Alice example of the spec. -/
theorem claim4_witness :
    allFirstNameString
        [[("first_name", Json.str "Bob")], [("first_name", Json.str "Alice")]] = true ∧
    (∃ s, sortFriends
        [[("first_name", Json.str "Bob")], [("first_name", Json.str "Alice")]] =
        Except.ok s ∧
      s.Perm [[("first_name", Json.str "Bob")], [("first_name", Json.str "Alice")]] ∧
      s.Pairwise (fun a b => strKey a ≤ strKey b) ∧
      buildReport [[("first_name", Json.str "Bob")], [("first_name", Json.str "Alice")]] =
        mapExcept extract_data s) :=
  ⟨rfl, claim4_sorted_report
    [[("first_name", Json.str "Bob")], [("first_name", Json.str "Alice")]] rfl⟩

/-- A successful mapExcept relates input and output pointwise. -/
theorem mapExcept_ok_forall2 {α β : Type} (f : α → Except PyErr β) :
    ∀ (l : List α) (r : List β), mapExcept f l = Except.ok r →
      List.Forall₂ (fun a b => f a = Except.ok b) l r := by
  intro l
  induction l with
  | nil =>
    intro r h
    simp only [mapExcept, Except.ok.injEq] at h
    rw [← h]
    exact List.Forall₂.nil
  | cons a t ih =>
    intro r h
    cases hfa : f a with
    | error e => rw [mapExcept] at h; simp [hfa, Bind.bind, Except.bind] at h
    | ok b =>
      cases hft : mapExcept f t with
      | error e => rw [mapExcept] at h; simp [hfa, hft, Bind.bind, Except.bind] at h
      | ok bs =>
        rw [mapExcept] at h
        simp only [hfa, hft, Bind.bind, Except.bind, Except.ok.injEq] at h
        rw [← h]
        exact List.Forall₂.cons hfa (ih bs hft)

/-- A pointwise relation transports sublists from its left side to its
right side. -/
theorem forall2_sublist {α β : Type} {R : α → β → Prop} :
    ∀ {l : List α} {r : List β} {l2 : List α}, List.Forall₂ R l r → l2.Sublist l →
      ∃ r2, r2.Sublist r ∧ List.Forall₂ R l2 r2 := by
  intro l r l2 hf
  induction hf generalizing l2 with
  | nil =>
    intro hs
    rw [List.sublist_nil.mp hs]
    exact ⟨[], List.Sublist.refl [], List.Forall₂.nil⟩
  | cons hab htail ih =>
    intro hs
    cases hs with
    | cons _ hs2 =>
      obtain ⟨r2, hr2, hf2⟩ := ih hs2
      exact ⟨r2, hr2.cons _, hf2⟩
    | cons₂ _ hs2 =>
      obtain ⟨r2, hr2, hf2⟩ := ih hs2
      exact ⟨_ :: r2, hr2.cons₂ _, List.Forall₂.cons hab hf2⟩

/-- Claim C10: the sort used by create_report is stable: two records with
equal first_name keys keep, in the sorted list and hence in the report,
the relative order they had in the raw input. -/
theorem claim10_stable_sort (l : List PyDict) (r1 r2 : PyDict)
    (hall : allFirstNameString l = true) (hsub : List.Sublist [r1, r2] l)
    (hkey : strKey r1 = strKey r2) :
    (∃ s, sortFriends l = Except.ok s ∧ List.Sublist [r1, r2] s) ∧
    (∀ rep, buildReport l = Except.ok rep →
      ∃ n1 n2, extract_data r1 = Except.ok n1 ∧ extract_data r2 = Except.ok n2 ∧
        List.Sublist [n1, n2] rep) := by
  obtain ⟨ks, hks⟩ := mapExcept_sortKey_ok l hall
  have hab : leFirstName r1 r2 := by
    simp only [leFirstName, decide_eq_true_eq, hkey]
    exact le_refl _
  have hpair := List.pair_sublist_mergeSort leFirstName_trans leFirstName_total hab hsub
  constructor
  · exact ⟨l.mergeSort leFirstName,
      by simp [sortFriends, hks, Bind.bind, Except.bind], hpair⟩
  · intro rep hrep
    have hmap : mapExcept extract_data (l.mergeSort leFirstName) = Except.ok rep := by
      simpa [buildReport, sortFriends, hks, Bind.bind, Except.bind] using hrep
    have hf2 := mapExcept_ok_forall2 extract_data _ _ hmap
    obtain ⟨r2, hr2, hf'⟩ := forall2_sublist hf2 hpair
    cases hf' with
    | cons h1 htail =>
      cases htail with
      | cons h2 hnil =>
        cases hnil
        exact ⟨_, _, h1, h2, hr2⟩

/-- Witness for claim C10: two records with the same first_name and
different sex values stay in input order. -/
theorem claim10_witness :
    allFirstNameString
        [[("first_name", Json.str "A"), ("sex", Json.num 1)],
         [("first_name", Json.str "A"), ("sex", Json.num 2)]] = true ∧
    strKey [("first_name", Json.str "A"), ("sex", Json.num 1)] =
      strKey [("first_name", Json.str "A"), ("sex", Json.num 2)] ∧
    ((∃ s, sortFriends
        [[("first_name", Json.str "A"), ("sex", Json.num 1)],
         [("first_name", Json.str "A"), ("sex", Json.num 2)]] = Except.ok s ∧
      List.Sublist
        [[("first_name", Json.str "A"), ("sex", Json.num 1)],
         [("first_name", Json.str "A"), ("sex", Json.num 2)]] s) ∧
    (∀ rep, buildReport
        [[("first_name", Json.str "A"), ("sex", Json.num 1)],
         [("first_name", Json.str "A"), ("sex", Json.num 2)]] = Except.ok rep →
      ∃ n1 n2, extract_data [("first_name", Json.str "A"), ("sex", Json.num 1)] =
          Except.ok n1 ∧
        extract_data [("first_name", Json.str "A"), ("sex", Json.num 2)] =
          Except.ok n2 ∧
        List.Sublist [n1, n2] rep)) :=
  ⟨rfl, rfl, claim10_stable_sort _ _ _ rfl (List.Sublist.refl _) rfl⟩

/-- Against the backing server, every page request succeeds and answers the
slice at the current offset. -/
theorem get_friends_vkFetch (items : List Json) (p offset : Nat) :
    get_friends (vkFetch items p) offset =
      Except.ok (Json.arr ((items.drop offset).take p)) := rfl

/-- The loop always issues at least one request. -/
theorem reqCount_pos (n p : Nat) (hp : 0 < p) : 1 ≤ reqCount n p := by
  unfold reqCount
  split
  · exact Nat.le_add_left 1 _
  · rename_i h0
    have hn : 1 ≤ n := by
      rcases Nat.eq_zero_or_pos n with rfl | h1
      · simp at h0
      · exact h1
    exact (Nat.one_le_div_iff hp).mpr (by omega)

/-- Fewer remaining items than the page size cost exactly one more
request. -/
theorem reqCount_short (n p : Nat) (hp : 0 < p) (h : n < p) : reqCount n p = 1 := by
  unfold reqCount
  split
  · rename_i h0
    have hn : n = 0 := by
      have := Nat.mod_eq_of_lt h
      omega
    subst hn
    simp
  · rename_i h0
    have hn : 1 ≤ n := by
      rcases Nat.eq_zero_or_pos n with rfl | h1
      · simp at h0
      · exact h1
    have e : n + p - 1 = (n - 1) + p := by omega
    rw [e, Nat.add_div_right _ hp, Nat.div_eq_of_lt (by omega)]

/-- One full page consumed costs one request. -/
theorem reqCount_step (n p : Nat) (hp : 0 < p) (h : p ≤ n) :
    reqCount n p = reqCount (n - p) p + 1 := by
  unfold reqCount
  have hmod : (n - p) % p = n % p := by
    conv_rhs => rw [show n = (n - p) + p by omega]
    rw [Nat.add_mod_right]
  have hdiv : n / p = (n - p) / p + 1 := by
    conv_lhs => rw [show n = (n - p) + p by omega]
    rw [Nat.add_div_right _ hp]
  by_cases h0 : n % p = 0
  · rw [if_pos h0, if_pos (by rw [hmod]; exact h0)]
    omega
  · rw [if_neg h0, if_neg (by rw [hmod]; exact h0)]
    have hn : 1 ≤ n := by
      rcases Nat.eq_zero_or_pos n with rfl | h1
      · simp at h0
      · exact h1
    have e : n + p - 1 = (n - p + p - 1) + p := by omega
    rw [e, Nat.add_div_right _ hp]

/-- The request count is bounded by the fuel used below. -/
theorem reqCount_le (n p : Nat) (hp : 0 < p) : reqCount n p ≤ n / p + 2 := by
  unfold reqCount
  split
  · omega
  · rename_i h0
    have hn : 1 ≤ n := by
      rcases Nat.eq_zero_or_pos n with rfl | h1
      · simp at h0
      · exact h1
    have e : n + p - 1 = (n - 1) + p := by omega
    rw [e, Nat.add_div_right _ hp]
    have hdle : (n - 1) / p ≤ n / p := Nat.div_le_div_right (by omega)
    omega

/-- Invariant of the pagination loop over the backing server: from any
offset, with a positive page size and enough fuel, the loop returns the
accumulator followed by every remaining item, and issues exactly
reqCount requests for the remaining items. -/
theorem get_all_friends_aux_spec (items : List Json) (p : Nat) (hp : 0 < p) :
    ∀ (fuel offset : Nat) (acc : List Json) (reqs : Nat),
      reqCount (items.length - offset) p ≤ fuel →
      get_all_friends_aux (vkFetch items p) p fuel offset acc reqs =
        some (Except.ok (acc ++ items.drop offset),
              reqs + reqCount (items.length - offset) p) := by
  intro fuel
  induction fuel with
  | zero =>
    intro offset acc reqs hfuel
    have := reqCount_pos (items.length - offset) p hp
    omega
  | succ fuel ih =>
    intro offset acc reqs hfuel
    have hlen : ((items.drop offset).take p).length =
        min p (items.length - offset) := by
      simp [List.length_take, List.length_drop]
    by_cases hlt : items.length - offset < p
    · have hshort : ((items.drop offset).take p).length < p := by omega
      have hpage : (items.drop offset).take p = items.drop offset :=
        List.take_of_length_le (by simp [List.length_drop]; omega)
      simp only [get_all_friends_aux, get_friends_vkFetch]
      rw [if_pos hshort, hpage, reqCount_short _ p hp hlt]
    · have hfull : ¬ ((items.drop offset).take p).length < p := by omega
      have hstep := reqCount_step (items.length - offset) p hp (by omega)
      have hsub : items.length - (offset + p) = items.length - offset - p := by
        omega
      have hfuel2 : reqCount (items.length - (offset + p)) p ≤ fuel := by
        rw [hsub]; omega
      simp only [get_all_friends_aux, get_friends_vkFetch]
      rw [if_neg hfull,
        ih (offset + p) (acc ++ (items.drop offset).take p) (reqs + 1) hfuel2]
      have hdd : items.drop (offset + p) = (items.drop offset).drop p := by
        rw [List.drop_drop, Nat.add_comm]
      have hsplit : (items.drop offset).take p ++ items.drop (offset + p) =
          items.drop offset := by
        rw [hdd]; exact List.take_append_drop p (items.drop offset)
      rw [List.append_assoc, hsplit, hsub]
      have harith : reqs + 1 + reqCount (items.length - offset - p) p =
          reqs + reqCount (items.length - offset) p := by omega
      rw [harith]

/-- Claim C1 (amended): for every positive page size p and backing sequence
of N items served in order, get_all_friends terminates (the explicit fuel
N / p + 2 suffices), returns the concatenation of the fetched pages in
request order, and issues N / p + 1 requests when p divides N and the
ceiling of N / p requests otherwise (reqCount). -/
theorem claim1_pagination (items : List Json) (p : Nat) (hp : 0 < p) :
    get_all_friends (vkFetch items p) p (items.length / p + 2) =
      some (Except.ok items, reqCount items.length p) := by
  have h := get_all_friends_aux_spec items p hp (items.length / p + 2) 0 [] 0
    (by simpa using reqCount_le items.length p hp)
  simpa using h

/-- With page size 0 the loop never terminates: no page can be strictly
shorter than 0 items, so the break is unreachable. -/
theorem get_all_friends_aux_zero :
    ∀ (fuel offset : Nat) (acc : List Json) (reqs : Nat),
      get_all_friends_aux (vkFetch [] 0) 0 fuel offset acc reqs = none := by
  intro fuel
  induction fuel with
  | zero => intro offset acc reqs; rfl
  | succ fuel ih =>
    intro offset acc reqs
    simp only [get_all_friends_aux, get_friends_vkFetch, List.drop_nil,
      List.take_nil, List.length_nil, Nat.lt_irrefl, if_false, List.append_nil]
    exact ih (offset + 0) acc (reqs + 1)

/-- Claim C1, counterexample to the claim as stated: with page size 0 the
loop does not terminate at all (no amount of fuel makes it return), so the
claim fails for that page size; termination and the request-count formula
hold for every positive page size (claim1_pagination). -/
theorem claim1_counterexample :
    ¬ ∃ fuel r, get_all_friends (vkFetch ([] : List Json) 0) 0 fuel = some r := by
  rintro ⟨fuel, r, h⟩
  rw [get_all_friends, get_all_friends_aux_zero] at h
  exact Option.noConfusion h

/-- Witness for claim C1: the spec example, page size 2 over 4 items,
drains in 3 requests. -/
theorem claim1_witness :
    0 < 2 ∧
    get_all_friends
        (vkFetch [Json.num 1, Json.num 2, Json.num 3, Json.num 4] 2) 2 4 =
      some (Except.ok [Json.num 1, Json.num 2, Json.num 3, Json.num 4], 3) :=
  ⟨by decide,
    claim1_pagination [Json.num 1, Json.num 2, Json.num 3, Json.num 4] 2 (by decide)⟩

/-- A failing transport request is wrapped by get_friends with its cause in
the message. -/
theorem get_friends_error (fetch : Nat → Except PyErr Json) (offset : Nat)
    (e : PyErr) (h : fetch offset = Except.error e) :
    get_friends fetch offset = Except.error
      (PyErr.exception ("Error occurred while requesting friends list: " ++ errMsg e)) := by
  simp [get_friends, h, Bind.bind, Except.bind]

/-- get_friends only looks at the fetch function at its own offset. -/
theorem get_friends_congr {f g : Nat → Except PyErr Json} (offset : Nat)
    (h : f offset = g offset) : get_friends f offset = get_friends g offset := by
  simp only [get_friends, h]

/-- Against a backing server that serves k more full pages and then fails,
the loop from any offset issues those k requests, accumulating pages, then
meets the failure and returns the wrapped error alone: the accumulator is
discarded. -/
theorem get_all_friends_failAt (items : List Json) (p : Nat) (e : PyErr)
    (hp : 0 < p) :
    ∀ (k fuel offset : Nat) (acc : List Json) (reqs : Nat),
      offset + k * p ≤ items.length →
      get_all_friends_aux (vkFetchFailAt items p (offset + k * p) e) p
          (fuel + k + 1) offset acc reqs =
        some (Except.error
          (PyErr.exception ("Error occurred while requesting friends list: " ++ errMsg e)),
          reqs + k + 1) := by
  intro k
  induction k with
  | zero =>
    intro fuel offset acc reqs hlen
    have hfe : vkFetchFailAt items p (offset + 0 * p) e offset = Except.error e := by
      simp [vkFetchFailAt]
    have hgf := get_friends_error _ offset e hfe
    simp only [get_all_friends_aux, hgf]
  | succ k ih =>
    intro fuel offset acc reqs hlen
    have hsm : (k + 1) * p = k * p + p := Nat.succ_mul k p
    have hlt : offset < offset + (k + 1) * p := by omega
    have hfe : vkFetchFailAt items p (offset + (k + 1) * p) e offset =
        vkFetch items p offset := by
      simp [vkFetchFailAt, hlt]
    have hgf : get_friends (vkFetchFailAt items p (offset + (k + 1) * p) e) offset =
        Except.ok (Json.arr ((items.drop offset).take p)) :=
      (get_friends_congr offset hfe).trans (get_friends_vkFetch items p offset)
    have hfull : ¬ ((items.drop offset).take p).length < p := by
      simp only [List.length_take, List.length_drop]
      omega
    simp only [get_all_friends_aux, hgf]
    rw [if_neg hfull]
    have hrec := ih fuel (offset + p) (acc ++ (items.drop offset).take p)
      (reqs + 1) (by omega)
    have harg : offset + p + k * p = offset + (k + 1) * p := by omega
    rw [harg] at hrec
    have hcnt : reqs + 1 + k + 1 = reqs + (k + 1) + 1 := by omega
    rw [hcnt] at hrec
    exact hrec

/-- Claim C8: for every page request, a transport failure, and equally a
response envelope in which the response.items path cannot be navigated,
makes get_friends raise a wrapping Exception whose message extends the
message of the underlying cause; and get_all_friends propagates the error
of a request failing at any point of the loop — whatever it has already
accumulated — as the outcome of the whole run, returning no partial list.
The last conjunct shows this end to end: a backing server that serves k
full pages and then fails makes the whole run answer only the wrapped
error after its k + 1 requests. -/
theorem claim8_fetch_errors (fetch : Nat → Except PyErr Json) (offset : Nat)
    (e : PyErr) :
    (fetch offset = Except.error e →
      get_friends fetch offset = Except.error
        (PyErr.exception ("Error occurred while requesting friends list: " ++ errMsg e))) ∧
    (∀ body, fetch offset = Except.ok body → envelopeItems body = Except.error e →
      get_friends fetch offset = Except.error
        (PyErr.exception ("Error occurred while requesting friends list: " ++ errMsg e))) ∧
    (∀ count fuel (acc : List Json) (reqs : Nat),
      get_friends fetch offset = Except.error e →
      get_all_friends_aux fetch count (fuel + 1) offset acc reqs =
        some (Except.error e, reqs + 1)) ∧
    (∀ count fuel, get_friends fetch 0 = Except.error e →
      get_all_friends fetch count (fuel + 1) = some (Except.error e, 1)) ∧
    (∀ items p k fuel, 0 < p → k * p ≤ items.length →
      get_all_friends (vkFetchFailAt items p (k * p) e) p (fuel + k + 1) =
        some (Except.error
          (PyErr.exception ("Error occurred while requesting friends list: " ++ errMsg e)),
          k + 1)) := by
  refine ⟨?_, ?_, ?_, ?_, ?_⟩
  · intro h
    exact get_friends_error fetch offset e h
  · intro body hb he
    simp [get_friends, hb, he, Bind.bind, Except.bind]
  · intro count fuel acc reqs h
    simp only [get_all_friends_aux, h]
  · intro count fuel h
    simp only [get_all_friends, get_all_friends_aux, h, Nat.zero_add]
  · intro items p k fuel hp hk
    have h := get_all_friends_failAt items p e hp k fuel 0 [] 0 (by simpa using hk)
    rw [get_all_friends]
    simpa using h

/-- Witness for claim C8: a refused connection is wrapped with its cause in
the message; a run failing on its first request aborts after it; and a run
that first accumulates one full page of two items and then meets the
failure still answers only the wrapped error, after its two requests. -/
theorem claim8_witness :
    get_friends (fun _ => Except.error (PyErr.ioError "connection refused")) 0 =
      Except.error (PyErr.exception
        "Error occurred while requesting friends list: connection refused") ∧
    get_all_friends (fun _ => Except.error (PyErr.ioError "connection refused")) 1000 5 =
      some (Except.error (PyErr.exception
        "Error occurred while requesting friends list: connection refused"), 1) ∧
    get_all_friends
        (vkFetchFailAt [Json.num 1, Json.num 2, Json.num 3, Json.num 4] 2 2
          (PyErr.ioError "connection refused")) 2 2 =
      some (Except.error (PyErr.exception
        "Error occurred while requesting friends list: connection refused"), 2) :=
  ⟨(claim8_fetch_errors (fun _ => Except.error (PyErr.ioError "connection refused")) 0
      (PyErr.ioError "connection refused")).1 rfl,
    (claim8_fetch_errors (fun _ => Except.error (PyErr.ioError "connection refused")) 0
      (PyErr.exception
        "Error occurred while requesting friends list: connection refused")).2.2.2.1 1000 4
      ((claim8_fetch_errors (fun _ => Except.error (PyErr.ioError "connection refused")) 0
        (PyErr.ioError "connection refused")).1 rfl),
    (claim8_fetch_errors (fun _ => Except.error (PyErr.ioError "connection refused")) 0
      (PyErr.ioError "connection refused")).2.2.2.2
      [Json.num 1, Json.num 2, Json.num 3, Json.num 4] 2 1 0
      (by decide) (by decide)⟩

end VkTask
